import Mathlib

set_option linter.unusedVariables false

/-!
Shallow embedding of the window-snapping coordination engine of
`internal/services/window_snap_service.go` (package `services`) together
with the data model of the `models` package it uses.

Machine integers are modelled as `Int` (pixel coordinates) and `Nat`
(sizes, millisecond timestamps).  The Go code computes distances in
`float64`; every one of those comparisons is between exactly
representable quantities, so they are embedded as exact integer
comparisons:

* `int(float64(w) * 0.025)` is `w * 25 / 1000` (`0.025` rounds in
  binary64 to `1/40·(1 + 2⁻⁵⁴·⁸)`, whose product with any realistic
  width truncates exactly like `w / 40 = w * 25 / 1000`);
* `math.Sqrt(float64(dx*dx+dy*dy)) <= 1.5*t` is `4*(dx*dx+dy*dy) ≤ 9*t*t`
  (both sides square exactly; the correctly rounded square root cannot
  cross the representable bound `1.5*t`);
* comparisons between two candidate distances compare the squared
  distances, since the square root is strictly monotone.

Wall-clock reads (`time.Now`, `time.Since`) are modelled by an explicit
event timestamp `now : Nat`: the several clock reads inside one event
handler happen microseconds apart, far below the 30ms/40ms windows, so
they are identified.  Queries to the external windowing layer
(`Position`, `Size`, main-window lookup) are an explicit environment
`Env`, and the `SetPosition` writes a handler issues are returned as an
explicit list of `(documentID, position)` commands.
-/

/-- Go struct `models.WindowPosition` : integer pixel position, compared by value. -/
structure WindowPosition where
  X : Int
  Y : Int
deriving DecidableEq, Repr

/-- Go struct `models.SnapPosition` : the stored snap offset vector. -/
structure SnapPosition where
  X : Int
  Y : Int
deriving DecidableEq, Repr

/-- Go enum `models.SnapEdge` : which edge or corner of the main window a child
window is attached to; `None` means unattached. -/
inductive SnapEdge where
  | None
  | Top
  | Bottom
  | Left
  | Right
  | TopLeft
  | TopRight
  | BottomLeft
  | BottomRight
deriving DecidableEq, Repr

/-- Go struct `models.WindowInfo` : the per-window tracked state
(`documentID -> WindowInfo` entries of `managedWindows`). -/
structure WindowInfo where
  DocumentID : Int
  IsSnapped : Bool
  SnapOffset : SnapPosition
  SnapEdge : SnapEdge
  LastPos : WindowPosition
  MoveTime : Nat
deriving DecidableEq, Repr

/-- The external windowing layer, as queried by the service: main-window
availability / geometry (`MustGetMainWindow`, `Position`, `Size`) and the
child windows' observed position and size (`window.Position`,
`window.Size`, keyed by `documentID`). -/
structure Env where
  mainAvailable : Bool
  mainPos : WindowPosition
  mainSize : Nat × Nat
  windowPos : Int → WindowPosition
  windowSize : Int → Nat × Nat

/-- The mutable fields of `WindowSnapService` (the logger, config
service, lock and event-hook bookkeeping carry no snap semantics and are
omitted; `windowRefs` keeps only the set of registered document ids). -/
structure WindowSnapService where
  snapEnabled : Bool
  lastMainWindowPos : WindowPosition
  lastMainWindowSize : Nat × Nat
  managedWindows : List (Int × WindowInfo)
  windowRefs : List Int
  windowSizeCache : List (Int × (Nat × Nat))
  isUpdatingPosition : List (Int × Bool)
deriving DecidableEq, Repr

/-- Constant `debounceThreshold = 30 * time.Millisecond`, in milliseconds. -/
def debounceThreshold : Nat := 30

/-- Constant `dragDetectionThreshold = 40 * time.Millisecond`, in milliseconds. -/
def dragDetectionThreshold : Nat := 40

/-- Field `minThreshold`, set once to 8 by `NewWindowSnapService` and never
written again. -/
def minThreshold : Nat := 8

/-- Field `maxThreshold`, set once to 40 by `NewWindowSnapService` and never
written again. -/
def maxThreshold : Nat := 40

/-- Lookup in a Go map modelled as an association list. -/
def lookupA {α : Type} (k : Int) : List (Int × α) → Option α
  | [] => none
  | (k1, v) :: rest => if k = k1 then some v else lookupA k rest

/-- Go map assignment `m[k] = v` on an association list. -/
def updateAssoc {α : Type} (k : Int) (v : α) : List (Int × α) → List (Int × α)
  | [] => [(k, v)]
  | (k1, v1) :: rest =>
      if k1 = k then (k, v) :: rest else (k1, v1) :: updateAssoc k v rest

/-- Go map read `wss.isUpdatingPosition[id]` (missing key reads `false`). -/
def guardSet (wss : WindowSnapService) (documentID : Int) : Bool :=
  (lookupA documentID wss.isUpdatingPosition).getD false

/-- Type of `config.General` of the configuration collaborator. -/
structure GeneralConfig where
  EnableWindowSnap : Bool
deriving DecidableEq, Repr

/-- The slice of the application configuration the service reads. -/
structure AppConfig where
  General : GeneralConfig
deriving DecidableEq, Repr

/-- A dynamically typed (`interface\x7b\x7d`) value delivered by the
configuration watcher. -/
inductive ConfigValue where
  | boolVal (b : Bool)
  | intVal (n : Int)
  | strVal (s : String)
deriving DecidableEq, Repr

/-- Function `onWindowSnapConfigChange` : the `enabled` flag the watcher callback
computes from the delivered `newValue` and passes on (a `nil` value is
`Option.none`; a type assertion failure takes the default `false`). -/
def onWindowSnapConfigChange (newValue : Option ConfigValue) : Bool :=
  match newValue with
  | some (ConfigValue.boolVal b) => b
  | _ => false

/-- Constructor `NewWindowSnapService` : the initial service state; `configResult`
is the outcome of `configService.GetConfig()`.  The code starts from
`snapEnabled := true` and overwrites it only when the read succeeds. -/
def NewWindowSnapService (configResult : Except Unit AppConfig) : WindowSnapService :=
  let snapEnabled :=
    match configResult with
    | Except.ok config => config.General.EnableWindowSnap
    | Except.error _ => true
  { snapEnabled := snapEnabled
    lastMainWindowPos := ⟨0, 0⟩
    lastMainWindowSize := (0, 0)
    managedWindows := []
    windowRefs := []
    windowSizeCache := []
    isUpdatingPosition := [] }

/-- Function `calculateAdaptiveThreshold` : threshold from the cached main-window
width; `int(float64(mainWidth) * 0.025)` is embedded as
`mainWidth * 25 / 1000` (see the header comment). -/
def calculateAdaptiveThreshold (wss : WindowSnapService) : Nat :=
  let mainWidth := wss.lastMainWindowSize.1
  if mainWidth = 0 then minThreshold
  else
    let adaptiveThreshold := mainWidth * 25 / 1000
    if adaptiveThreshold < minThreshold then minThreshold
    else if maxThreshold < adaptiveThreshold then maxThreshold
    else adaptiveThreshold

/-- Function `GetCurrentThreshold` : public accessor of the adaptive threshold. -/
def GetCurrentThreshold (wss : WindowSnapService) : Nat :=
  calculateAdaptiveThreshold wss

/-- Modelled from the spec's words (for comparison with the code):
`clamp(primaryWidth * ratio, min, max)` with `ratio = 0.025 = 25/1000`,
`min = 8`, `max = 40`. -/
def thresholdClampSpec (w : Nat) : Nat :=
  min (max (w * 25 / 1000) minThreshold) maxThreshold

/-- Claim C6: `GetCurrentThreshold` equals `clamp(width * 0.025, 8, 40)`
in integer pixels, is monotone non-decreasing in the cached main-window
width, always lies in `[8, 40]`, equals `8` whenever `width * 0.025 < 8`,
and equals the minimal threshold `8` when the cached width is `0`
(main-window size unavailable); it is a pure function of the state. -/
theorem adaptiveThreshold_spec (wss wss2 : WindowSnapService)
    (h : wss.lastMainWindowSize.1 ≤ wss2.lastMainWindowSize.1) :
    GetCurrentThreshold wss = thresholdClampSpec wss.lastMainWindowSize.1
    ∧ minThreshold ≤ GetCurrentThreshold wss
    ∧ GetCurrentThreshold wss ≤ maxThreshold
    ∧ GetCurrentThreshold wss ≤ GetCurrentThreshold wss2
    ∧ (wss.lastMainWindowSize.1 * 25 < 8 * 1000 → GetCurrentThreshold wss = 8)
    ∧ (wss.lastMainWindowSize.1 = 0 → GetCurrentThreshold wss = minThreshold) := by
  have key : ∀ w : Nat,
      (if w = 0 then minThreshold
       else
        if w * 25 / 1000 < minThreshold then minThreshold
        else if maxThreshold < w * 25 / 1000 then maxThreshold
        else w * 25 / 1000) = min (max (w * 25 / 1000) minThreshold) maxThreshold := by
    intro w
    simp only [minThreshold, maxThreshold]
    split_ifs <;> omega
  have hmono : ∀ w w2 : Nat, w ≤ w2 →
      (min (max (w * 25 / 1000) minThreshold) maxThreshold : Nat)
        ≤ min (max (w2 * 25 / 1000) minThreshold) maxThreshold := by
    intro w w2 hw
    have : w * 25 / 1000 ≤ w2 * 25 / 1000 :=
      Nat.div_le_div_right (Nat.mul_le_mul_right 25 hw)
    simp only [minThreshold, maxThreshold]
    omega
  constructor
  · simpa [GetCurrentThreshold, calculateAdaptiveThreshold, thresholdClampSpec]
      using key wss.lastMainWindowSize.1
  refine ⟨?_, ?_, ?_, ?_, ?_⟩
  · rw [show GetCurrentThreshold wss = thresholdClampSpec wss.lastMainWindowSize.1 by
      simpa [GetCurrentThreshold, calculateAdaptiveThreshold, thresholdClampSpec]
        using key wss.lastMainWindowSize.1]
    simp only [thresholdClampSpec, minThreshold, maxThreshold]
    omega
  · rw [show GetCurrentThreshold wss = thresholdClampSpec wss.lastMainWindowSize.1 by
      simpa [GetCurrentThreshold, calculateAdaptiveThreshold, thresholdClampSpec]
        using key wss.lastMainWindowSize.1]
    simp only [thresholdClampSpec, minThreshold, maxThreshold]
    omega
  · rw [show GetCurrentThreshold wss = thresholdClampSpec wss.lastMainWindowSize.1 by
      simpa [GetCurrentThreshold, calculateAdaptiveThreshold, thresholdClampSpec]
        using key wss.lastMainWindowSize.1,
      show GetCurrentThreshold wss2 = thresholdClampSpec wss2.lastMainWindowSize.1 by
      simpa [GetCurrentThreshold, calculateAdaptiveThreshold, thresholdClampSpec]
        using key wss2.lastMainWindowSize.1]
    exact hmono _ _ h
  · intro hlt
    rw [show GetCurrentThreshold wss = thresholdClampSpec wss.lastMainWindowSize.1 by
      simpa [GetCurrentThreshold, calculateAdaptiveThreshold, thresholdClampSpec]
        using key wss.lastMainWindowSize.1]
    simp only [thresholdClampSpec, minThreshold, maxThreshold]
    omega
  · intro h0
    simp [GetCurrentThreshold, calculateAdaptiveThreshold, h0]

/-- Function `updateMainWindowCacheLocked` : refresh the cached main-window
geometry from the windowing layer (`MustGetMainWindow` returning `nil`
makes it a no-op). -/
def updateMainWindowCacheLocked (env : Env) (wss : WindowSnapService) : WindowSnapService :=
  if env.mainAvailable then
    { wss with lastMainWindowPos := env.mainPos, lastMainWindowSize := env.mainSize }
  else wss

/-- Function `updateWindowSizeCacheLocked` : store the child window's live size in
the size cache. -/
def updateWindowSizeCacheLocked (env : Env) (documentID : Int)
    (wss : WindowSnapService) : WindowSnapService :=
  { wss with windowSizeCache := updateAssoc documentID (env.windowSize documentID) wss.windowSizeCache }

/-- Function `getWindowSizeCached` : cached child-window size, filling the cache
from a live query on a miss (and falling back to the live size if even
the refreshed cache misses). -/
def getWindowSizeCached (env : Env) (documentID : Int)
    (wss : WindowSnapService) : WindowSnapService × (Nat × Nat) :=
  match lookupA documentID wss.windowSizeCache with
  | some size => (wss, size)
  | none =>
    let wss1 := updateWindowSizeCacheLocked env documentID wss
    match lookupA documentID wss1.windowSizeCache with
    | some size => (wss1, size)
    | none => (wss1, env.windowSize documentID)

/-- The `for _, check := range ...` selection loop of
`shouldSnapToMainWindow`: keep the accepted candidate with the strictly
smallest distance (`.2` holds the squared Euclidean distance for corner
candidates and the absolute axis gap for edge candidates; both orders
agree with the float comparisons of the source, the square root being
strictly monotone). -/
def snapLoop (accept : SnapEdge × Int → Bool) :
    List (SnapEdge × Int) → Option (SnapEdge × Int) → Option (SnapEdge × Int)
  | [], best => best
  | c :: rest, best =>
      if accept c then
        match best with
        | none => snapLoop accept rest (some c)
        | some b =>
            if c.2 < b.2 then snapLoop accept rest (some c)
            else snapLoop accept rest (some b)
      else snapLoop accept rest best

/-- The `cornerChecks` table of `shouldSnapToMainWindow`, with each
candidate paired with its squared Euclidean distance `dx*dx + dy*dy`. -/
def cornerChecks (mainPos currentPos : WindowPosition)
    (mainWidth mainHeight windowWidth windowHeight : Nat) : List (SnapEdge × Int) :=
  let mainLeft := mainPos.X
  let mainTop := mainPos.Y
  let mainRight := mainPos.X + (mainWidth : Int)
  let mainBottom := mainPos.Y + (mainHeight : Int)
  let windowLeft := currentPos.X
  let windowTop := currentPos.Y
  let windowRight := currentPos.X + (windowWidth : Int)
  let windowBottom := currentPos.Y + (windowHeight : Int)
  [ (SnapEdge.TopRight,
      (mainRight - windowLeft) * (mainRight - windowLeft)
        + (mainTop - windowBottom) * (mainTop - windowBottom)),
    (SnapEdge.BottomRight,
      (mainRight - windowLeft) * (mainRight - windowLeft)
        + (mainBottom - windowTop) * (mainBottom - windowTop)),
    (SnapEdge.BottomLeft,
      (mainLeft - windowRight) * (mainLeft - windowRight)
        + (mainBottom - windowTop) * (mainBottom - windowTop)),
    (SnapEdge.TopLeft,
      (mainLeft - windowRight) * (mainLeft - windowRight)
        + (mainTop - windowBottom) * (mainTop - windowBottom)) ]

/-- The `edgeChecks` table of `shouldSnapToMainWindow`, with each
candidate paired with the absolute gap on its aligning axis. -/
def edgeChecks (mainPos currentPos : WindowPosition)
    (mainWidth mainHeight windowWidth windowHeight : Nat) : List (SnapEdge × Int) :=
  let mainLeft := mainPos.X
  let mainTop := mainPos.Y
  let mainRight := mainPos.X + (mainWidth : Int)
  let mainBottom := mainPos.Y + (mainHeight : Int)
  let windowLeft := currentPos.X
  let windowTop := currentPos.Y
  let windowRight := currentPos.X + (windowWidth : Int)
  let windowBottom := currentPos.Y + (windowHeight : Int)
  [ (SnapEdge.Right, ((mainRight - windowLeft).natAbs : Int)),
    (SnapEdge.Left, ((mainLeft - windowRight).natAbs : Int)),
    (SnapEdge.Bottom, ((mainBottom - windowTop).natAbs : Int)),
    (SnapEdge.Top, ((mainTop - windowBottom).natAbs : Int)) ]

/-- Corner acceptance `dist <= cornerThreshold` with
`cornerThreshold = threshold * 1.5`, over squared distances:
`sqrt d2 ≤ 1.5*t  ⟺  4*d2 ≤ 9*t*t`. -/
def cornerAccept (threshold : Nat) (c : SnapEdge × Int) : Bool :=
  4 * c.2 ≤ 9 * (threshold : Int) * (threshold : Int)

/-- Edge acceptance `check.distance <= threshold`. -/
def edgeAccept (threshold : Nat) (c : SnapEdge × Int) : Bool :=
  c.2 ≤ (threshold : Int)

/-- The candidate-selection core of `shouldSnapToMainWindow` (lines
624–689): corner candidates first, edge candidates only when no corner
qualifies; `none` when nothing qualifies. -/
def snapDecision (threshold : Nat) (mainPos currentPos : WindowPosition)
    (mainWidth mainHeight windowWidth windowHeight : Nat) : Option SnapEdge :=
  let corners := cornerChecks mainPos currentPos mainWidth mainHeight windowWidth windowHeight
  let bestCorner := snapLoop (cornerAccept threshold) corners none
  let best :=
    match bestCorner with
    | some b => some b
    | none =>
        snapLoop (edgeAccept threshold)
          (edgeChecks mainPos currentPos mainWidth mainHeight windowWidth windowHeight) none
  best.map (fun b => b.1)

/-- Function `shouldSnapToMainWindow` : debounce, lazy main-cache refresh, cached
child size, adaptive threshold, then the candidate selection. -/
def shouldSnapToMainWindow (env : Env) (now lastMoveTime : Nat)
    (currentPos : WindowPosition) (documentID : Int)
    (wss : WindowSnapService) : WindowSnapService × Bool × SnapEdge :=
  if now - lastMoveTime < debounceThreshold then (wss, false, SnapEdge.None)
  else
    let wss1 :=
      if wss.lastMainWindowSize.1 = 0 ∨ wss.lastMainWindowSize.2 = 0 then
        updateMainWindowCacheLocked env wss
      else wss
    let sized := getWindowSizeCached env documentID wss1
    let wss2 := sized.1
    let windowWidth := sized.2.1
    let windowHeight := sized.2.2
    let threshold := calculateAdaptiveThreshold wss2
    match snapDecision threshold wss2.lastMainWindowPos currentPos
        wss2.lastMainWindowSize.1 wss2.lastMainWindowSize.2 windowWidth windowHeight with
    | none => (wss2, false, SnapEdge.None)
    | some e => (wss2, true, e)

/-- Function `calculateSnapPosition` : target position for a chosen snap edge. -/
def calculateSnapPosition (env : Env) (snapEdge : SnapEdge)
    (currentPos : WindowPosition) (documentID : Int)
    (wss : WindowSnapService) : WindowSnapService × WindowPosition :=
  let mainPos := wss.lastMainWindowPos
  let mainWidth := wss.lastMainWindowSize.1
  let mainHeight := wss.lastMainWindowSize.2
  let sized := getWindowSizeCached env documentID wss
  let wss1 := sized.1
  let windowWidth := sized.2.1
  let windowHeight := sized.2.2
  let pos :=
    match snapEdge with
    | SnapEdge.Right => WindowPosition.mk (mainPos.X + (mainWidth : Int)) currentPos.Y
    | SnapEdge.Left => WindowPosition.mk (mainPos.X - (windowWidth : Int)) currentPos.Y
    | SnapEdge.Bottom => WindowPosition.mk currentPos.X (mainPos.Y + (mainHeight : Int))
    | SnapEdge.Top => WindowPosition.mk currentPos.X (mainPos.Y - (windowHeight : Int))
    | SnapEdge.TopRight =>
        WindowPosition.mk (mainPos.X + (mainWidth : Int)) (mainPos.Y - (windowHeight : Int))
    | SnapEdge.BottomRight =>
        WindowPosition.mk (mainPos.X + (mainWidth : Int)) (mainPos.Y + (mainHeight : Int))
    | SnapEdge.BottomLeft =>
        WindowPosition.mk (mainPos.X - (windowWidth : Int)) (mainPos.Y + (mainHeight : Int))
    | SnapEdge.TopLeft =>
        WindowPosition.mk (mainPos.X - (windowWidth : Int)) (mainPos.Y - (windowHeight : Int))
    | SnapEdge.None => currentPos
  (wss1, pos)

/-- Function `handleSnappedWindow` : user-drag detection for an attached window.
Note that the caller (`onChildWindowMoved`) has already overwritten
`MoveTime` with the current instant before this runs, so
`time.Since(windowInfo.MoveTime)` here is `now - now = 0`. -/
def handleSnappedWindow (wss : WindowSnapService) (windowInfo : WindowInfo)
    (currentPos : WindowPosition) (now : Nat) : WindowInfo :=
  let expectedX := wss.lastMainWindowPos.X + windowInfo.SnapOffset.X
  let expectedY := wss.lastMainWindowPos.Y + windowInfo.SnapOffset.Y
  let distanceX := (currentPos.X - expectedX).natAbs
  let distanceY := (currentPos.Y - expectedY).natAbs
  let maxDistance := max distanceX distanceY
  let userDragThreshold := calculateAdaptiveThreshold wss
  if userDragThreshold < maxDistance ∧ now - windowInfo.MoveTime < dragDetectionThreshold then
    { windowInfo with IsSnapped := false, SnapEdge := SnapEdge.None }
  else windowInfo

/-- Function `handleUnsnappedWindow` : snap evaluation for a detached window; on
acceptance, marks the window snapped, issues the programmatic move
(guard set around the `SetPosition`, hence netting a cleared guard
entry), stores the offset from the main window and the new
`LastPos`.  The third component is the `bool` return of the source. -/
def handleUnsnappedWindow (env : Env) (now lastMoveTime : Nat)
    (currentPos : WindowPosition) (documentID : Int) (windowInfo : WindowInfo)
    (wss : WindowSnapService) :
    WindowSnapService × List (Int × WindowPosition) × Bool :=
  let checked := shouldSnapToMainWindow env now lastMoveTime currentPos documentID wss
  let wss1 := checked.1
  if checked.2.1 then
    let snapEdge := checked.2.2
    let wi1 := { windowInfo with IsSnapped := true, SnapEdge := snapEdge }
    let target := calculateSnapPosition env snapEdge currentPos documentID wss1
    let wss2 := target.1
    let targetPos := target.2
    let wss3 :=
      { wss2 with isUpdatingPosition := updateAssoc documentID false wss2.isUpdatingPosition }
    let wi2 :=
      { wi1 with
          SnapOffset := SnapPosition.mk (targetPos.X - wss2.lastMainWindowPos.X)
            (targetPos.Y - wss2.lastMainWindowPos.Y)
          LastPos := targetPos }
    ({ wss3 with managedWindows := updateAssoc documentID wi2 wss3.managedWindows },
      [(documentID, targetPos)], true)
  else (wss1, [], false)

/-- Function `onChildWindowMoved` : the secondary-window move handler. -/
def onChildWindowMoved (env : Env) (now : Nat) (documentID : Int)
    (wss : WindowSnapService) : WindowSnapService × List (Int × WindowPosition) :=
  if wss.snapEnabled = false then (wss, [])
  else if guardSet wss documentID then (wss, [])
  else
    match lookupA documentID wss.managedWindows with
    | none => (wss, [])
    | some windowInfo =>
      let currentPos := env.windowPos documentID
      if currentPos.X = windowInfo.LastPos.X ∧ currentPos.Y = windowInfo.LastPos.Y then
        (wss, [])
      else
        let lastMoveTime := windowInfo.MoveTime
        let wi1 := { windowInfo with MoveTime := now }
        if wi1.IsSnapped then
          let wi2 := handleSnappedWindow wss wi1 currentPos now
          let wi3 := { wi2 with LastPos := currentPos }
          ({ wss with managedWindows := updateAssoc documentID wi3 wss.managedWindows }, [])
        else
          let wssA :=
            { wss with managedWindows := updateAssoc documentID wi1 wss.managedWindows }
          let handled := handleUnsnappedWindow env now lastMoveTime currentPos documentID wi1 wssA
          if handled.2.2 then (handled.1, handled.2.1)
          else
            ({ handled.1 with
                managedWindows :=
                  updateAssoc documentID { wi1 with LastPos := currentPos }
                    handled.1.managedWindows },
              handled.2.1)

/-- Function `updateSnappedWindowPosition` applied to one managed entry inside the
`onMainWindowMoved` loop: the target `mainPos + SnapOffset`. -/
def snappedTarget (mainPos : WindowPosition) (windowInfo : WindowInfo) : WindowPosition :=
  WindowPosition.mk (mainPos.X + windowInfo.SnapOffset.X) (mainPos.Y + windowInfo.SnapOffset.Y)

/-- Function `onMainWindowMoved` : the primary-window move handler — refresh the
cached main geometry and re-sync (`updateSnappedWindowPosition`) every
snapped window whose reference still exists; each re-sync sets and then
clears the re-entrancy guard and records `LastPos`. -/
def onMainWindowMoved (env : Env) (wss : WindowSnapService) :
    WindowSnapService × List (Int × WindowPosition) :=
  if wss.snapEnabled = false then (wss, [])
  else if env.mainAvailable = false then (wss, [])
  else
    let wss1 :=
      { wss with lastMainWindowPos := env.mainPos, lastMainWindowSize := env.mainSize }
    let touched := fun (p : Int × WindowInfo) =>
      p.2.IsSnapped = true ∧ p.1 ∈ wss1.windowRefs
    let managed := wss1.managedWindows.map (fun p =>
      if p.2.IsSnapped = true ∧ p.1 ∈ wss1.windowRefs then
        (p.1, { p.2 with LastPos := snappedTarget env.mainPos p.2 })
      else p)
    let moves := wss1.managedWindows.filterMap (fun p =>
      if p.2.IsSnapped = true ∧ p.1 ∈ wss1.windowRefs then
        some (p.1, snappedTarget env.mainPos p.2)
      else none)
    let guards := wss1.managedWindows.foldl (fun g p =>
      if p.2.IsSnapped = true ∧ p.1 ∈ wss1.windowRefs then updateAssoc p.1 false g else g)
      wss1.isUpdatingPosition
    ({ wss1 with managedWindows := managed, isUpdatingPosition := guards }, moves)

/-- Function `SetSnapEnabled` : toggle the feature; disabling clears every
attached window's `IsSnapped`/`SnapEdge` without issuing any move. -/
def SetSnapEnabled (enabled : Bool) (wss : WindowSnapService) :
    WindowSnapService × List (Int × WindowPosition) :=
  if wss.snapEnabled = enabled then (wss, [])
  else
    let wss1 := { wss with snapEnabled := enabled }
    if enabled then (wss1, [])
    else
      ({ wss1 with
          managedWindows := wss1.managedWindows.map (fun p =>
            if p.2.IsSnapped then
              (p.1, { p.2 with IsSnapped := false, SnapEdge := SnapEdge.None })
            else p) }, [])

/-- Function `RegisterWindow` : track a new window with a fresh unattached
`WindowInfo` at its observed position and prime its size cache. -/
def RegisterWindow (env : Env) (now : Nat) (documentID : Int)
    (wss : WindowSnapService) : WindowSnapService :=
  let pos := env.windowPos documentID
  let windowInfo : WindowInfo :=
    { DocumentID := documentID
      IsSnapped := false
      SnapOffset := SnapPosition.mk 0 0
      SnapEdge := SnapEdge.None
      LastPos := pos
      MoveTime := now }
  let wss1 :=
    { wss with
        managedWindows := updateAssoc documentID windowInfo wss.managedWindows
        windowRefs :=
          if documentID ∈ wss.windowRefs then wss.windowRefs
          else documentID :: wss.windowRefs }
  updateWindowSizeCacheLocked env documentID wss1

/-! ### Helper lemmas about the association-list map operations -/

theorem lookupA_updateAssoc_self {α : Type} (k : Int) (v : α) (l : List (Int × α)) :
    lookupA k (updateAssoc k v l) = some v := by
  induction l with
  | nil => simp [updateAssoc, lookupA]
  | cons p rest ih =>
    obtain ⟨k1, v1⟩ := p
    by_cases hk : k1 = k
    · subst hk
      simp [updateAssoc, lookupA]
    · have hk2 : ¬(k = k1) := fun h2 => hk h2.symm
      simp [updateAssoc, hk, lookupA, hk2, ih]

theorem mem_updateAssoc {α : Type} {k : Int} {v : α} {l : List (Int × α)} {p : Int × α}
    (hp : p ∈ updateAssoc k v l) : p = (k, v) ∨ p ∈ l := by
  induction l with
  | nil => simpa [updateAssoc] using hp
  | cons q rest ih =>
    obtain ⟨k1, v1⟩ := q
    by_cases hk : k1 = k
    · simp only [updateAssoc, hk, if_true, List.mem_cons] at hp
      rcases hp with h | h
      · exact Or.inl h
      · exact Or.inr (List.mem_cons_of_mem _ h)
    · simp only [updateAssoc, hk, if_false, List.mem_cons] at hp
      rcases hp with h | h
      · exact Or.inr (by simp [h])
      · rcases ih h with h2 | h2
        · exact Or.inl h2
        · exact Or.inr (List.mem_cons_of_mem _ h2)

theorem lookupA_mem {α : Type} {k : Int} {l : List (Int × α)} {v : α}
    (h : lookupA k l = some v) : (k, v) ∈ l := by
  induction l with
  | nil => simp [lookupA] at h
  | cons q rest ih =>
    obtain ⟨k1, v1⟩ := q
    by_cases hk : k = k1
    · subst hk
      have h2 : some v1 = some v := by simpa [lookupA] using h
      injection h2 with h3
      simp [h3]
    · simp only [lookupA, hk, if_false] at h
      exact List.mem_cons_of_mem _ (ih h)

/-! ### Helper lemmas about the candidate-selection loop -/

theorem snapLoop_acc {accept : SnapEdge × Int → Bool} :
    ∀ (l : List (SnapEdge × Int)) (b : SnapEdge × Int),
      ∃ r, snapLoop accept l (some b) = some r
        ∧ (r = b ∨ (r ∈ l ∧ accept r = true))
        ∧ r.2 ≤ b.2
        ∧ ∀ c ∈ l, accept c = true → r.2 ≤ c.2 := by
  intro l
  induction l with
  | nil => exact fun b => ⟨b, rfl, Or.inl rfl, le_refl _, by simp⟩
  | cons c rest ih =>
    intro b
    by_cases hc : accept c = true
    · by_cases hlt : c.2 < b.2
      · obtain ⟨r, hr, hmem, hle, hmin⟩ := ih c
        refine ⟨r, ?_, ?_, ?_, ?_⟩
        · simp [snapLoop, hc, hlt, hr]
        · rcases hmem with h | h
          · exact Or.inr ⟨by simp [h], by simpa [h] using hc⟩
          · exact Or.inr ⟨List.mem_cons_of_mem _ h.1, h.2⟩
        · exact le_trans hle (le_of_lt hlt)
        · intro c2 hc2 hacc
          rcases List.mem_cons.mp hc2 with h | h
          · exact le_trans hle (by simp [h])
          · exact hmin c2 h hacc
      · obtain ⟨r, hr, hmem, hle, hmin⟩ := ih b
        refine ⟨r, ?_, ?_, hle, ?_⟩
        · simp [snapLoop, hc, hlt, hr]
        · rcases hmem with h | h
          · exact Or.inl h
          · exact Or.inr ⟨List.mem_cons_of_mem _ h.1, h.2⟩
        · intro c2 hc2 hacc
          rcases List.mem_cons.mp hc2 with h | h
          · have : b.2 ≤ c.2 := le_of_not_lt hlt
            exact le_trans hle (by simpa [h] using this)
          · exact hmin c2 h hacc
    · obtain ⟨r, hr, hmem, hle, hmin⟩ := ih b
      refine ⟨r, ?_, ?_, hle, ?_⟩
      · simp [snapLoop, hc, hr]
      · rcases hmem with h | h
        · exact Or.inl h
        · exact Or.inr ⟨List.mem_cons_of_mem _ h.1, h.2⟩
      · intro c2 hc2 hacc
        rcases List.mem_cons.mp hc2 with h | h
        · subst h
          exact absurd hacc hc
        · exact hmin c2 h hacc

theorem snapLoop_none {accept : SnapEdge × Int → Bool} :
    ∀ (l : List (SnapEdge × Int)), (∀ c ∈ l, accept c = false) →
      snapLoop accept l none = none := by
  intro l
  induction l with
  | nil => intro _; rfl
  | cons c rest ih =>
    intro h
    have hc : accept c = false := h c (by simp)
    have : snapLoop accept (c :: rest) none = snapLoop accept rest none := by
      simp [snapLoop, hc]
    rw [this]
    exact ih (fun c2 hc2 => h c2 (List.mem_cons_of_mem _ hc2))

theorem snapLoop_mem_none {accept : SnapEdge × Int → Bool} :
    ∀ (l : List (SnapEdge × Int)) (r : SnapEdge × Int),
      snapLoop accept l none = some r → r ∈ l ∧ accept r = true := by
  intro l
  induction l with
  | nil => intro r h; simp [snapLoop] at h
  | cons c rest ih =>
    intro r h
    by_cases hc : accept c = true
    · rw [show snapLoop accept (c :: rest) none = snapLoop accept rest (some c) by
        simp [snapLoop, hc]] at h
      obtain ⟨r2, hr2, hmem, _, _⟩ := @snapLoop_acc accept rest c
      rw [hr2] at h
      injection h with h
      subst h
      rcases hmem with h2 | h2
      · exact ⟨by simp [h2], by simpa [h2] using hc⟩
      · exact ⟨List.mem_cons_of_mem _ h2.1, h2.2⟩
    · rw [show snapLoop accept (c :: rest) none = snapLoop accept rest none by
        simp [snapLoop, hc]] at h
      obtain ⟨h1, h2⟩ := ih r h
      exact ⟨List.mem_cons_of_mem _ h1, h2⟩

theorem snapLoop_found {accept : SnapEdge × Int → Bool} :
    ∀ (l : List (SnapEdge × Int)), (∃ c ∈ l, accept c = true) →
      ∃ r, snapLoop accept l none = some r ∧ r ∈ l ∧ accept r = true
        ∧ ∀ c ∈ l, accept c = true → r.2 ≤ c.2 := by
  intro l
  induction l with
  | nil => intro h; simp at h
  | cons c rest ih =>
    intro h
    by_cases hc : accept c = true
    · obtain ⟨r, hr, hmem, hle, hmin⟩ := @snapLoop_acc accept rest c
      refine ⟨r, by simp [snapLoop, hc, hr], ?_, ?_, ?_⟩
      · rcases hmem with h2 | h2
        · simp [h2]
        · exact List.mem_cons_of_mem _ h2.1
      · rcases hmem with h2 | h2
        · simpa [h2] using hc
        · exact h2.2
      · intro c2 hc2 hacc
        rcases List.mem_cons.mp hc2 with h2 | h2
        · exact le_trans hle (by simp [h2])
        · exact hmin c2 h2 hacc
    · obtain ⟨c0, hc0, hacc0⟩ := h
      have hc0r : c0 ∈ rest := by
        rcases List.mem_cons.mp hc0 with h2 | h2
        · exact absurd (h2 ▸ hacc0) hc
        · exact h2
      obtain ⟨r, hr, hmem, hacc, hmin⟩ := ih ⟨c0, hc0r, hacc0⟩
      refine ⟨r, by simp [snapLoop, hc, hr], List.mem_cons_of_mem _ hmem, hacc, ?_⟩
      intro c2 hc2 hacc2
      rcases List.mem_cons.mp hc2 with h2 | h2
      · exact absurd (h2 ▸ hacc2) hc
      · exact hmin c2 h2 hacc2

/-! ### State-shape lemmas: which fields each helper can touch -/

theorem updateMainWindowCacheLocked_state (env : Env) (wss : WindowSnapService) :
    ∃ p s, updateMainWindowCacheLocked env wss =
      { wss with lastMainWindowPos := p, lastMainWindowSize := s } := by
  unfold updateMainWindowCacheLocked
  split
  · exact ⟨env.mainPos, env.mainSize, rfl⟩
  · exact ⟨wss.lastMainWindowPos, wss.lastMainWindowSize, rfl⟩

theorem getWindowSizeCached_state (env : Env) (documentID : Int) (wss : WindowSnapService) :
    ∃ c, (getWindowSizeCached env documentID wss).1 = { wss with windowSizeCache := c } := by
  unfold getWindowSizeCached updateWindowSizeCacheLocked
  split
  · exact ⟨wss.windowSizeCache, rfl⟩
  · dsimp only
    split
    · exact ⟨_, rfl⟩
    · exact ⟨_, rfl⟩

theorem shouldSnapToMainWindow_state (env : Env) (now lastMoveTime : Nat)
    (currentPos : WindowPosition) (documentID : Int) (wss : WindowSnapService) :
    ∃ p s c, (shouldSnapToMainWindow env now lastMoveTime currentPos documentID wss).1 =
      { wss with lastMainWindowPos := p, lastMainWindowSize := s, windowSizeCache := c } := by
  unfold shouldSnapToMainWindow
  split
  · exact ⟨wss.lastMainWindowPos, wss.lastMainWindowSize, wss.windowSizeCache, rfl⟩
  · by_cases h0 : wss.lastMainWindowSize.1 = 0 ∨ wss.lastMainWindowSize.2 = 0
    · simp only [h0, if_true]
      obtain ⟨p, s, h1⟩ := updateMainWindowCacheLocked_state env wss
      obtain ⟨c, h2⟩ := getWindowSizeCached_state env documentID (updateMainWindowCacheLocked env wss)
      refine ⟨p, s, c, ?_⟩
      cases hd : snapDecision (calculateAdaptiveThreshold (getWindowSizeCached env documentID (updateMainWindowCacheLocked env wss)).1)
          (getWindowSizeCached env documentID (updateMainWindowCacheLocked env wss)).1.lastMainWindowPos currentPos
          (getWindowSizeCached env documentID (updateMainWindowCacheLocked env wss)).1.lastMainWindowSize.1
          (getWindowSizeCached env documentID (updateMainWindowCacheLocked env wss)).1.lastMainWindowSize.2
          (getWindowSizeCached env documentID (updateMainWindowCacheLocked env wss)).2.1
          (getWindowSizeCached env documentID (updateMainWindowCacheLocked env wss)).2.2 with
      | none => simp only [hd]; rw [h2, h1]
      | some e => simp only [hd]; rw [h2, h1]
    · simp only [h0, if_false]
      obtain ⟨c, h2⟩ := getWindowSizeCached_state env documentID wss
      refine ⟨wss.lastMainWindowPos, wss.lastMainWindowSize, c, ?_⟩
      cases hd : snapDecision (calculateAdaptiveThreshold (getWindowSizeCached env documentID wss).1)
          (getWindowSizeCached env documentID wss).1.lastMainWindowPos currentPos
          (getWindowSizeCached env documentID wss).1.lastMainWindowSize.1
          (getWindowSizeCached env documentID wss).1.lastMainWindowSize.2
          (getWindowSizeCached env documentID wss).2.1
          (getWindowSizeCached env documentID wss).2.2 with
      | none => simp only [hd]; rw [h2]
      | some e => simp only [hd]; rw [h2]

theorem calculateSnapPosition_state (env : Env) (snapEdge : SnapEdge)
    (currentPos : WindowPosition) (documentID : Int) (wss : WindowSnapService) :
    ∃ c, (calculateSnapPosition env snapEdge currentPos documentID wss).1 =
      { wss with windowSizeCache := c } := by
  obtain ⟨c, h⟩ := getWindowSizeCached_state env documentID wss
  exact ⟨c, by simp only [calculateSnapPosition]; exact h⟩

/-! ### The candidate tables only contain the corresponding edges -/

theorem mem_cornerChecks {mainPos currentPos : WindowPosition}
    {mainWidth mainHeight windowWidth windowHeight : Nat} {r : SnapEdge × Int}
    (h : r ∈ cornerChecks mainPos currentPos mainWidth mainHeight windowWidth windowHeight) :
    r.1 = SnapEdge.TopRight ∨ r.1 = SnapEdge.BottomRight
      ∨ r.1 = SnapEdge.BottomLeft ∨ r.1 = SnapEdge.TopLeft := by
  simp only [cornerChecks, List.mem_cons, List.not_mem_nil, or_false] at h
  rcases h with rfl | rfl | rfl | rfl <;> simp

theorem mem_edgeChecks {mainPos currentPos : WindowPosition}
    {mainWidth mainHeight windowWidth windowHeight : Nat} {r : SnapEdge × Int}
    (h : r ∈ edgeChecks mainPos currentPos mainWidth mainHeight windowWidth windowHeight) :
    r.1 = SnapEdge.Right ∨ r.1 = SnapEdge.Left
      ∨ r.1 = SnapEdge.Bottom ∨ r.1 = SnapEdge.Top := by
  simp only [edgeChecks, List.mem_cons, List.not_mem_nil, or_false] at h
  rcases h with rfl | rfl | rfl | rfl <;> simp

theorem snapDecision_mem {threshold : Nat} {mainPos currentPos : WindowPosition}
    {mainWidth mainHeight windowWidth windowHeight : Nat} {e : SnapEdge}
    (h : snapDecision threshold mainPos currentPos mainWidth mainHeight windowWidth windowHeight
      = some e) :
    (∃ r ∈ cornerChecks mainPos currentPos mainWidth mainHeight windowWidth windowHeight,
        r.1 = e)
    ∨ (∃ r ∈ edgeChecks mainPos currentPos mainWidth mainHeight windowWidth windowHeight,
        r.1 = e) := by
  simp only [snapDecision] at h
  cases hc : snapLoop (cornerAccept threshold)
      (cornerChecks mainPos currentPos mainWidth mainHeight windowWidth windowHeight) none with
  | some b =>
    rw [hc] at h
    simp only [Option.map_some] at h
    injection h with h
    obtain ⟨hmem, _⟩ := snapLoop_mem_none _ _ hc
    exact Or.inl ⟨b, hmem, h⟩
  | none =>
    rw [hc] at h
    cases he : snapLoop (edgeAccept threshold)
        (edgeChecks mainPos currentPos mainWidth mainHeight windowWidth windowHeight) none with
    | some b =>
      rw [he] at h
      simp only [Option.map_some] at h
      injection h with h
      obtain ⟨hmem, _⟩ := snapLoop_mem_none _ _ he
      exact Or.inr ⟨b, hmem, h⟩
    | none =>
      rw [he] at h
      simp at h

theorem snapDecision_ne_none {threshold : Nat} {mainPos currentPos : WindowPosition}
    {mainWidth mainHeight windowWidth windowHeight : Nat} {e : SnapEdge}
    (h : snapDecision threshold mainPos currentPos mainWidth mainHeight windowWidth windowHeight
      = some e) : e ≠ SnapEdge.None := by
  rcases snapDecision_mem h with ⟨r, hr, he⟩ | ⟨r, hr, he⟩
  · rcases mem_cornerChecks hr with h2 | h2 | h2 | h2 <;> rw [← he, h2] <;> simp
  · rcases mem_edgeChecks hr with h2 | h2 | h2 | h2 <;> rw [← he, h2] <;> simp

/-- If `shouldSnapToMainWindow` accepts, the chosen edge is never `None`. -/
theorem shouldSnapToMainWindow_ne_none {env : Env} {now lastMoveTime : Nat}
    {currentPos : WindowPosition} {documentID : Int} {wss wss1 : WindowSnapService}
    {e : SnapEdge}
    (h : shouldSnapToMainWindow env now lastMoveTime currentPos documentID wss
      = (wss1, true, e)) : e ≠ SnapEdge.None := by
  unfold shouldSnapToMainWindow at h
  split at h
  · simp at h
  · dsimp only at h
    set wssB := (if wss.lastMainWindowSize.1 = 0 ∨ wss.lastMainWindowSize.2 = 0 then
        updateMainWindowCacheLocked env wss else wss) with hB
    cases hd : snapDecision (calculateAdaptiveThreshold (getWindowSizeCached env documentID wssB).1)
        (getWindowSizeCached env documentID wssB).1.lastMainWindowPos currentPos
        (getWindowSizeCached env documentID wssB).1.lastMainWindowSize.1
        (getWindowSizeCached env documentID wssB).1.lastMainWindowSize.2
        (getWindowSizeCached env documentID wssB).2.1
        (getWindowSizeCached env documentID wssB).2.2 with
    | none => rw [hd] at h; simp at h
    | some e2 =>
      rw [hd] at h
      have he : e2 = e := by
        have := congrArg (fun x => x.2.2) h
        simpa using this
      exact he ▸ snapDecision_ne_none hd

/-- The per-window snap-state invariant of §3: `isSnapped == true` iff
`snapEdge != None`, over every tracked window. -/
def SnapInv (wss : WindowSnapService) : Prop :=
  ∀ p ∈ wss.managedWindows, (p.2.IsSnapped = true ↔ p.2.SnapEdge ≠ SnapEdge.None)

theorem snapInv_update {l : List (Int × WindowInfo)} {k : Int} {wi : WindowInfo}
    (hl : ∀ p ∈ l, (p.2.IsSnapped = true ↔ p.2.SnapEdge ≠ SnapEdge.None))
    (hwi : wi.IsSnapped = true ↔ wi.SnapEdge ≠ SnapEdge.None) :
    ∀ p ∈ updateAssoc k wi l, (p.2.IsSnapped = true ↔ p.2.SnapEdge ≠ SnapEdge.None) := by
  intro p hp
  rcases mem_updateAssoc hp with h | h
  · rw [h]
    exact hwi
  · exact hl p h

/-! ### Concrete sample data used by the closed witnesses -/

/-- A sample environment: main window at `(100,100)` sized `700×800`, the
child window observed at `(805,300)` with size `400×600`. -/
def envSample : Env :=
  { mainAvailable := true
    mainPos := ⟨100, 100⟩
    mainSize := (700, 800)
    windowPos := fun _ => ⟨805, 300⟩
    windowSize := fun _ => (400, 600) }

/-- A sample snapped window: attached to the right edge with offset
`(700, 0)`, last seen at the snapped position `(800, 100)`. -/
def wiSnappedSample : WindowInfo :=
  { DocumentID := 1
    IsSnapped := true
    SnapOffset := ⟨700, 0⟩
    SnapEdge := SnapEdge.Right
    LastPos := ⟨800, 100⟩
    MoveTime := 1000 }

/-- A sample unsnapped window. -/
def wiFreeSample : WindowInfo :=
  { DocumentID := 1
    IsSnapped := false
    SnapOffset := ⟨0, 0⟩
    SnapEdge := SnapEdge.None
    LastPos := ⟨0, 0⟩
    MoveTime := 0 }

/-- Sample service state tracking the snapped window. -/
def stateSnappedSample : WindowSnapService :=
  { snapEnabled := true
    lastMainWindowPos := ⟨100, 100⟩
    lastMainWindowSize := (700, 800)
    managedWindows := [(1, wiSnappedSample)]
    windowRefs := [1]
    windowSizeCache := [(1, (400, 600))]
    isUpdatingPosition := [] }

/-- Sample service state tracking the unsnapped window. -/
def stateFreeSample : WindowSnapService :=
  { snapEnabled := true
    lastMainWindowPos := ⟨100, 100⟩
    lastMainWindowSize := (700, 800)
    managedWindows := [(1, wiFreeSample)]
    windowRefs := [1]
    windowSizeCache := [(1, (400, 600))]
    isUpdatingPosition := [] }

/-- Sample state whose cached main width is `300` (below the clamp knee). -/
def stateW300 : WindowSnapService :=
  { snapEnabled := true
    lastMainWindowPos := ⟨0, 0⟩
    lastMainWindowSize := (300, 200)
    managedWindows := []
    windowRefs := []
    windowSizeCache := []
    isUpdatingPosition := [] }

/-- Claim C6 witness: the specification of `GetCurrentThreshold`
instantiated at widths `300 ≤ 700`. -/
theorem adaptiveThreshold_spec_witness :
    GetCurrentThreshold stateW300 = thresholdClampSpec stateW300.lastMainWindowSize.1
    ∧ GetCurrentThreshold stateW300 ≤ GetCurrentThreshold stateSnappedSample
    ∧ GetCurrentThreshold stateW300 = 8 := by
  have h := adaptiveThreshold_spec stateW300 stateSnappedSample (by decide)
  exact ⟨h.1, h.2.2.2.1, h.2.2.2.2.1 (by decide)⟩

/-- Claim C1 (code-bug exhibit): a `SNAPPED` window whose previous move
was 200ms ago (`MoveTime = 1000`, event at `now = 1200`, so
`Δt = 200ms ≥ 40ms`) is dragged 50px from its expected position
(observed at `(850,100)`, expected `(800,100)`, threshold `17`).  Per the
spec (Scenario C) it must stay snapped, because `Δt` exceeds the
drag-detection window.  The code instead detaches it: `onChildWindowMoved`
overwrites `MoveTime` with `now` before `handleSnappedWindow` evaluates
`time.Since(windowInfo.MoveTime)`, so the elapsed-time condition compares
`now` against itself (`0 < 40ms`, always true) and the saved
`lastMoveTime` — which the unsnapped path does receive — is never
consulted.  Detachment is therefore decided by distance alone. -/
theorem snappedDetach_usesUpdatedTimestamp :
    lookupA 1 ((onChildWindowMoved
        { mainAvailable := true
          mainPos := ⟨100, 100⟩
          mainSize := (700, 800)
          windowPos := fun _ => ⟨850, 100⟩
          windowSize := fun _ => (400, 600) }
        1200 1 stateSnappedSample).1.managedWindows)
      = some { DocumentID := 1
               IsSnapped := false
               SnapOffset := ⟨700, 0⟩
               SnapEdge := SnapEdge.None
               LastPos := ⟨850, 100⟩
               MoveTime := 1200 } := by
  decide

/-- Claim C7: toggling snapping off clears `IsSnapped`/`SnapEdge` on
every tracked window, leaves `LastPos`, `SnapOffset` and `MoveTime`
untouched, issues no programmatic move, changes no cache, and a
subsequent re-enable flips only the flag back without touching any
per-window state.  (Stated over states satisfying the snap invariant, as
every reachable state does: windows with `IsSnapped = false` are not
rewritten by the loop, so their `SnapEdge` stays `None` only because the
invariant already made it `None`.) -/
theorem setSnapEnabled_false_clears (wss : WindowSnapService)
    (h : wss.snapEnabled = true) (hinv : SnapInv wss) :
    (SetSnapEnabled false wss).2 = []
    ∧ (SetSnapEnabled false wss).1.snapEnabled = false
    ∧ (∀ p ∈ wss.managedWindows, ∃ wi2,
        (p.1, wi2) ∈ (SetSnapEnabled false wss).1.managedWindows
        ∧ wi2.IsSnapped = false
        ∧ wi2.SnapEdge = SnapEdge.None
        ∧ wi2.LastPos = p.2.LastPos
        ∧ wi2.SnapOffset = p.2.SnapOffset
        ∧ wi2.MoveTime = p.2.MoveTime)
    ∧ (SetSnapEnabled false wss).1.lastMainWindowPos = wss.lastMainWindowPos
    ∧ (SetSnapEnabled false wss).1.lastMainWindowSize = wss.lastMainWindowSize
    ∧ (SetSnapEnabled false wss).1.windowSizeCache = wss.windowSizeCache
    ∧ (SetSnapEnabled false wss).1.isUpdatingPosition = wss.isUpdatingPosition
    ∧ (SetSnapEnabled false wss).1.windowRefs = wss.windowRefs
    ∧ (SetSnapEnabled true (SetSnapEnabled false wss).1).1.managedWindows
        = (SetSnapEnabled false wss).1.managedWindows
    ∧ (SetSnapEnabled true (SetSnapEnabled false wss).1).2 = []
    ∧ (SetSnapEnabled true (SetSnapEnabled false wss).1).1.snapEnabled = true := by
  have hne : ¬(wss.snapEnabled = false) := by simp [h]
  refine ⟨?_, ?_, ?_, ?_, ?_, ?_, ?_, ?_, ?_, ?_, ?_⟩
  · simp [SetSnapEnabled, hne]
  · simp [SetSnapEnabled, hne]
  · intro p hp
    refine ⟨if p.2.IsSnapped then
        { p.2 with IsSnapped := false, SnapEdge := SnapEdge.None } else p.2, ?_, ?_⟩
    · simp only [SetSnapEnabled, hne, if_false, if_true]
      by_cases hps : p.2.IsSnapped
      · simpa [hps] using
          List.mem_map_of_mem (fun q : Int × WindowInfo =>
            if q.2.IsSnapped then
              (q.1, { q.2 with IsSnapped := false, SnapEdge := SnapEdge.None })
            else q) hp
      · simpa [hps] using
          List.mem_map_of_mem (fun q : Int × WindowInfo =>
            if q.2.IsSnapped then
              (q.1, { q.2 with IsSnapped := false, SnapEdge := SnapEdge.None })
            else q) hp
    · by_cases hps : p.2.IsSnapped
      · simp [hps]
      · have hedge : p.2.SnapEdge = SnapEdge.None := by
          have h2 := hinv p hp
          rcases hs : p.2.SnapEdge with _ | _ | _ | _ | _ | _ | _ | _ | _
          · rfl
          all_goals
            exact absurd (h2.mpr (by simp [hs])) (by simpa using hps)
        simp [hps, hedge]
  · simp [SetSnapEnabled, hne]
  · simp [SetSnapEnabled, hne]
  · simp [SetSnapEnabled, hne]
  · simp [SetSnapEnabled, hne]
  · simp [SetSnapEnabled, hne]
  · simp [SetSnapEnabled, hne]
  · simp [SetSnapEnabled, hne]
  · simp [SetSnapEnabled, hne]

/-- Claim C7 witness: disabling with two snapped windows tracked. -/
theorem setSnapEnabled_false_clears_witness :
    (SetSnapEnabled false
      { stateSnappedSample with
          managedWindows := [(1, wiSnappedSample), (2, { wiSnappedSample with DocumentID := 2 })] }).2 = []
    ∧ (∀ p ∈ [(1, wiSnappedSample), (2, { wiSnappedSample with DocumentID := 2 })], ∃ wi2,
        (p.1, wi2) ∈ (SetSnapEnabled false
          { stateSnappedSample with
              managedWindows := [(1, wiSnappedSample), (2, { wiSnappedSample with DocumentID := 2 })] }).1.managedWindows
        ∧ wi2.IsSnapped = false
        ∧ wi2.SnapEdge = SnapEdge.None
        ∧ wi2.LastPos = p.2.LastPos
        ∧ wi2.SnapOffset = p.2.SnapOffset
        ∧ wi2.MoveTime = p.2.MoveTime) := by
  have h := setSnapEnabled_false_clears
    { stateSnappedSample with
        managedWindows := [(1, wiSnappedSample), (2, { wiSnappedSample with DocumentID := 2 })] }
    (by decide) (by unfold SnapInv; decide)
  exact ⟨h.1, h.2.2.1⟩

/-- Claim C8: a child-window move event arriving while the re-entrancy
guard (`isUpdatingPosition`) is set for that window id is ignored
entirely — the returned state is the input state and no move command is
issued — so an echo of the engine's own `SetPosition` never triggers a
snap evaluation. -/
theorem reentrancyGuard_blocks (env : Env) (now : Nat) (documentID : Int)
    (wss : WindowSnapService) (h : guardSet wss documentID = true) :
    onChildWindowMoved env now documentID wss = (wss, []) := by
  unfold onChildWindowMoved
  by_cases h1 : wss.snapEnabled = false
  · simp [h1]
  · simp [h1, h]

/-- Claim C8 witness: the guarded state is returned unchanged. -/
theorem reentrancyGuard_blocks_witness :
    guardSet { stateSnappedSample with isUpdatingPosition := [(1, true)] } 1 = true
    ∧ onChildWindowMoved envSample 1200 1
        { stateSnappedSample with isUpdatingPosition := [(1, true)] }
      = ({ stateSnappedSample with isUpdatingPosition := [(1, true)] }, []) :=
  ⟨by decide,
    reentrancyGuard_blocks envSample 1200 1
      { stateSnappedSample with isUpdatingPosition := [(1, true)] } (by decide)⟩

/-- Claim C10: while `snapEnabled` is `false`, both move handlers return
before touching anything: the state (every per-window field, the primary
geometry cache, the size caches) is returned identical and no move
command is issued. -/
theorem disabled_freezes (env : Env) (now : Nat) (documentID : Int)
    (wss : WindowSnapService) (h : wss.snapEnabled = false) :
    onChildWindowMoved env now documentID wss = (wss, [])
    ∧ onMainWindowMoved env wss = (wss, []) := by
  constructor
  · unfold onChildWindowMoved
    simp [h]
  · unfold onMainWindowMoved
    simp [h]

/-- Claim C10 witness: a disabled state is frozen under both handlers. -/
theorem disabled_freezes_witness :
    onChildWindowMoved envSample 1200 1 { stateSnappedSample with snapEnabled := false }
      = ({ stateSnappedSample with snapEnabled := false }, [])
    ∧ onMainWindowMoved envSample { stateSnappedSample with snapEnabled := false }
      = ({ stateSnappedSample with snapEnabled := false }, []) :=
  disabled_freezes envSample 1200 1 { stateSnappedSample with snapEnabled := false } (by decide)

/-- Claim C9 counterexample: when the configuration cannot be read at
construction, `NewWindowSnapService` defaults `snapEnabled` to `true`,
not `false` as the claim states. -/
theorem newService_error_default_not_false :
    (NewWindowSnapService (Except.error ())).snapEnabled ≠ false := by
  decide

/-- Claim C9 (amended): every delivered configuration-change value that
is `nil` or not a boolean yields `enabled = false`; but at construction a
failed configuration read defaults to `true` (enabled), and a successful
read uses the configured value. -/
theorem snapEnabledDefaults_amended :
    (∀ v : Option ConfigValue, (∀ b, v ≠ some (ConfigValue.boolVal b)) →
      onWindowSnapConfigChange v = false)
    ∧ (NewWindowSnapService (Except.error ())).snapEnabled = true
    ∧ (∀ config, (NewWindowSnapService (Except.ok config)).snapEnabled
        = config.General.EnableWindowSnap) := by
  refine ⟨?_, rfl, fun config => rfl⟩
  intro v hv
  match v with
  | none => rfl
  | some (ConfigValue.boolVal b) => exact absurd rfl (hv b)
  | some (ConfigValue.intVal n) => rfl
  | some (ConfigValue.strVal s) => rfl

/-- Claim C9 witness: a non-boolean delivered value maps to `false`. -/
theorem snapEnabledDefaults_amended_witness :
    onWindowSnapConfigChange (some (ConfigValue.intVal 3)) = false :=
  snapEnabledDefaults_amended.1 (some (ConfigValue.intVal 3)) (by intro b; simp)

/-- Claim C2: in the candidate evaluation, a corner is accepted exactly
when its Euclidean distance over the two gap components is at most
`cornerThreshold = 1.5 × threshold` (embedded exactly as
`4·d² ≤ 9·t²`), and the minimum-distance accepted corner wins; whenever
any corner qualifies the chosen edge is one of the four corners; edges
are evaluated only when no corner qualifies, an edge being accepted when
the absolute gap on its aligning axis is at most `threshold`, the
minimum-gap accepted edge winning; and when nothing qualifies no snap
occurs. -/
theorem snapDecision_corner_priority (threshold : Nat)
    (mainPos currentPos : WindowPosition)
    (mainWidth mainHeight windowWidth windowHeight : Nat) :
    ((∃ c ∈ cornerChecks mainPos currentPos mainWidth mainHeight windowWidth windowHeight,
        cornerAccept threshold c = true) →
      ∃ c ∈ cornerChecks mainPos currentPos mainWidth mainHeight windowWidth windowHeight,
        cornerAccept threshold c = true
        ∧ snapDecision threshold mainPos currentPos mainWidth mainHeight windowWidth windowHeight
            = some c.1
        ∧ (c.1 = SnapEdge.TopRight ∨ c.1 = SnapEdge.BottomRight
            ∨ c.1 = SnapEdge.BottomLeft ∨ c.1 = SnapEdge.TopLeft)
        ∧ ∀ c2 ∈ cornerChecks mainPos currentPos mainWidth mainHeight windowWidth windowHeight,
            cornerAccept threshold c2 = true → c.2 ≤ c2.2)
    ∧ ((∀ c ∈ cornerChecks mainPos currentPos mainWidth mainHeight windowWidth windowHeight,
          cornerAccept threshold c = false) →
        (∃ e ∈ edgeChecks mainPos currentPos mainWidth mainHeight windowWidth windowHeight,
          edgeAccept threshold e = true) →
        ∃ e ∈ edgeChecks mainPos currentPos mainWidth mainHeight windowWidth windowHeight,
          edgeAccept threshold e = true
          ∧ snapDecision threshold mainPos currentPos mainWidth mainHeight windowWidth windowHeight
              = some e.1
          ∧ ∀ e2 ∈ edgeChecks mainPos currentPos mainWidth mainHeight windowWidth windowHeight,
              edgeAccept threshold e2 = true → e.2 ≤ e2.2)
    ∧ ((∀ c ∈ cornerChecks mainPos currentPos mainWidth mainHeight windowWidth windowHeight,
          cornerAccept threshold c = false) →
        (∀ e ∈ edgeChecks mainPos currentPos mainWidth mainHeight windowWidth windowHeight,
          edgeAccept threshold e = false) →
        snapDecision threshold mainPos currentPos mainWidth mainHeight windowWidth windowHeight
          = none) := by
  refine ⟨?_, ?_, ?_⟩
  · intro hex
    obtain ⟨r, hr, hmem, hacc, hmin⟩ := snapLoop_found _ hex
    exact ⟨r, hmem, hacc, by simp [snapDecision, hr], mem_cornerChecks hmem, hmin⟩
  · intro hnone hex
    have hc := snapLoop_none _ hnone
    obtain ⟨r, hr, hmem, hacc, hmin⟩ := snapLoop_found _ hex
    exact ⟨r, hmem, hacc, by simp [snapDecision, hc, hr], hmin⟩
  · intro hnc hne
    simp [snapDecision, snapLoop_none _ hnc, snapLoop_none _ hne]

/-- Claim C2 witness (Scenario B): main at `(100,100)` sized `700×800`
(threshold `17`), a `400×300` child at `(805,-208)`: its bottom-left
corner is 5px/8px from the main's top-right corner (within the corner
threshold), while its left edge is also 5px from the main's right edge —
the decision is the corner `TopRight`, not the edge `Right`. -/
theorem snapDecision_corner_priority_witness :
    ∃ c ∈ cornerChecks ⟨100, 100⟩ ⟨805, -208⟩ 700 800 400 300,
      cornerAccept 17 c = true
      ∧ snapDecision 17 ⟨100, 100⟩ ⟨805, -208⟩ 700 800 400 300 = some c.1
      ∧ (c.1 = SnapEdge.TopRight ∨ c.1 = SnapEdge.BottomRight
          ∨ c.1 = SnapEdge.BottomLeft ∨ c.1 = SnapEdge.TopLeft)
      ∧ ∀ c2 ∈ cornerChecks ⟨100, 100⟩ ⟨805, -208⟩ 700 800 400 300,
          cornerAccept 17 c2 = true → c.2 ≤ c2.2 :=
  (snapDecision_corner_priority 17 ⟨100, 100⟩ ⟨805, -208⟩ 700 800 400 300).1 (by decide)

/-- Claim C3: whenever `shouldSnapToMainWindow` accepts a candidate, the
handler marks the window snapped with the chosen edge, issues exactly one
programmatic move to the exact snapped position computed by
`calculateSnapPosition`, stores `snapOffset = snappedPosition -
primary.position`, and sets `LastPos` to the snapped position; for the
`Right` edge the target is `x = primary.x + primary.width` with the
window's current `y` preserved. -/
theorem handleUnsnappedWindow_snaps (env : Env) (now lastMoveTime : Nat)
    (currentPos : WindowPosition) (documentID : Int) (windowInfo : WindowInfo)
    (wss wss1 : WindowSnapService) (e : SnapEdge)
    (h : shouldSnapToMainWindow env now lastMoveTime currentPos documentID wss
      = (wss1, true, e)) :
    (handleUnsnappedWindow env now lastMoveTime currentPos documentID windowInfo wss).2.2 = true
    ∧ (handleUnsnappedWindow env now lastMoveTime currentPos documentID windowInfo wss).2.1
        = [(documentID, (calculateSnapPosition env e currentPos documentID wss1).2)]
    ∧ lookupA documentID
        (handleUnsnappedWindow env now lastMoveTime currentPos documentID windowInfo
          wss).1.managedWindows
      = some { windowInfo with
          IsSnapped := true
          SnapEdge := e
          SnapOffset := SnapPosition.mk
            ((calculateSnapPosition env e currentPos documentID wss1).2.X
              - wss1.lastMainWindowPos.X)
            ((calculateSnapPosition env e currentPos documentID wss1).2.Y
              - wss1.lastMainWindowPos.Y)
          LastPos := (calculateSnapPosition env e currentPos documentID wss1).2 }
    ∧ (e = SnapEdge.Right →
        (calculateSnapPosition env e currentPos documentID wss1).2
          = WindowPosition.mk (wss1.lastMainWindowPos.X + (wss1.lastMainWindowSize.1 : Int))
              currentPos.Y) := by
  obtain ⟨c, hc⟩ := calculateSnapPosition_state env e currentPos documentID wss1
  refine ⟨?_, ?_, ?_, ?_⟩
  · simp [handleUnsnappedWindow, h]
  · simp [handleUnsnappedWindow, h]
  · simp [handleUnsnappedWindow, h, lookupA_updateAssoc_self, hc]
  · intro he
    subst he
    simp [calculateSnapPosition]

/-- Claim C3 witness (Scenario A): main at `(100,100)` sized `700×800`,
a free `400×600` child at `(805,300)` (5px right of the main's right
edge, vertically overlapping): the handler snaps it to `(800,300)` with
edge `Right`, offset `(700,200)`. -/
theorem handleUnsnappedWindow_snaps_witness :
    (handleUnsnappedWindow envSample 100 0 ⟨805, 300⟩ 1
        { wiFreeSample with MoveTime := 100 } stateFreeSample).2.2 = true
    ∧ (handleUnsnappedWindow envSample 100 0 ⟨805, 300⟩ 1
        { wiFreeSample with MoveTime := 100 } stateFreeSample).2.1
        = [(1, (calculateSnapPosition envSample SnapEdge.Right ⟨805, 300⟩ 1 stateFreeSample).2)]
    ∧ lookupA 1 (handleUnsnappedWindow envSample 100 0 ⟨805, 300⟩ 1
        { wiFreeSample with MoveTime := 100 } stateFreeSample).1.managedWindows
      = some { { wiFreeSample with MoveTime := 100 } with
          IsSnapped := true
          SnapEdge := SnapEdge.Right
          SnapOffset := SnapPosition.mk
            ((calculateSnapPosition envSample SnapEdge.Right ⟨805, 300⟩ 1 stateFreeSample).2.X
              - stateFreeSample.lastMainWindowPos.X)
            ((calculateSnapPosition envSample SnapEdge.Right ⟨805, 300⟩ 1 stateFreeSample).2.Y
              - stateFreeSample.lastMainWindowPos.Y)
          LastPos := (calculateSnapPosition envSample SnapEdge.Right ⟨805, 300⟩ 1 stateFreeSample).2 }
    ∧ (calculateSnapPosition envSample SnapEdge.Right ⟨805, 300⟩ 1 stateFreeSample).2
        = WindowPosition.mk 800 300 := by
  have h := handleUnsnappedWindow_snaps envSample 100 0 ⟨805, 300⟩ 1
    { wiFreeSample with MoveTime := 100 } stateFreeSample stateFreeSample SnapEdge.Right
    (by decide)
  exact ⟨h.1, h.2.1, h.2.2.1, by decide⟩

/-- Claim C4: on a primary move with snapping enabled, the cached primary
geometry is refreshed; every snapped tracked window (whose reference
exists) is re-synced to `primary.position + snapOffset` — both in its
recorded `LastPos` and through an issued move command — so if it sat at
`oldPrimary + snapOffset` its position changes by exactly the primary's
delta; unsnapped windows keep their entry verbatim, and every issued move
targets some snapped window (no snap evaluation for unsnapped ones). -/
theorem onMainWindowMoved_syncs (env : Env) (wss : WindowSnapService)
    (documentID : Int) (windowInfo : WindowInfo)
    (hen : wss.snapEnabled = true) (hav : env.mainAvailable = true)
    (hmem : (documentID, windowInfo) ∈ wss.managedWindows) :
    (onMainWindowMoved env wss).1.lastMainWindowPos = env.mainPos
    ∧ (onMainWindowMoved env wss).1.lastMainWindowSize = env.mainSize
    ∧ (windowInfo.IsSnapped = true → documentID ∈ wss.windowRefs →
        (documentID, { windowInfo with LastPos := snappedTarget env.mainPos windowInfo })
          ∈ (onMainWindowMoved env wss).1.managedWindows
        ∧ (documentID, snappedTarget env.mainPos windowInfo) ∈ (onMainWindowMoved env wss).2
        ∧ ∀ oldMain : WindowPosition,
            windowInfo.LastPos = snappedTarget oldMain windowInfo →
            (snappedTarget env.mainPos windowInfo).X - windowInfo.LastPos.X
                = env.mainPos.X - oldMain.X
            ∧ (snappedTarget env.mainPos windowInfo).Y - windowInfo.LastPos.Y
                = env.mainPos.Y - oldMain.Y)
    ∧ (windowInfo.IsSnapped = false →
        (documentID, windowInfo) ∈ (onMainWindowMoved env wss).1.managedWindows)
    ∧ (∀ m ∈ (onMainWindowMoved env wss).2,
        ∃ p ∈ wss.managedWindows, p.2.IsSnapped = true ∧ m.1 = p.1) := by
  have hen2 : ¬(wss.snapEnabled = false) := by simp [hen]
  have hav2 : ¬(env.mainAvailable = false) := by simp [hav]
  refine ⟨?_, ?_, ?_, ?_, ?_⟩
  · unfold onMainWindowMoved
    rw [if_neg hen2, if_neg hav2]
  · unfold onMainWindowMoved
    rw [if_neg hen2, if_neg hav2]
  · intro hsn href
    refine ⟨?_, ?_, ?_⟩
    · unfold onMainWindowMoved
      rw [if_neg hen2, if_neg hav2]
      dsimp only
      refine List.mem_map.mpr ⟨(documentID, windowInfo), hmem, ?_⟩
      simp [hsn, href]
    · unfold onMainWindowMoved
      rw [if_neg hen2, if_neg hav2]
      dsimp only
      refine List.mem_filterMap.mpr ⟨(documentID, windowInfo), hmem, ?_⟩
      simp [hsn, href]
    · intro oldMain hlp
      constructor <;> (rw [hlp]; simp [snappedTarget]; try ring)
  · intro hsn
    unfold onMainWindowMoved
    rw [if_neg hen2, if_neg hav2]
    dsimp only
    refine List.mem_map.mpr ⟨(documentID, windowInfo), hmem, ?_⟩
    simp [hsn]
  · intro m hm
    unfold onMainWindowMoved at hm
    rw [if_neg hen2, if_neg hav2] at hm
    dsimp only at hm
    rw [List.mem_filterMap] at hm
    obtain ⟨p, hp, hf⟩ := hm
    split at hf
    · rename_i h2
      injection hf with hf
      exact ⟨p, hp, h2.1, by rw [← hf]⟩
    · simp at hf

/-- Claim C4 witness: the primary moves to `(130,115)` (delta
`(+30,+15)`); the snapped sample window is re-synced to `(830,115)`. -/
theorem onMainWindowMoved_syncs_witness :
    (onMainWindowMoved { envSample with mainPos := ⟨130, 115⟩ }
        stateSnappedSample).1.lastMainWindowPos = WindowPosition.mk 130 115
    ∧ (1, { wiSnappedSample with
          LastPos := snappedTarget ⟨130, 115⟩ wiSnappedSample })
        ∈ (onMainWindowMoved { envSample with mainPos := ⟨130, 115⟩ }
            stateSnappedSample).1.managedWindows
    ∧ (1, snappedTarget ⟨130, 115⟩ wiSnappedSample)
        ∈ (onMainWindowMoved { envSample with mainPos := ⟨130, 115⟩ }
            stateSnappedSample).2
    ∧ (snappedTarget ⟨130, 115⟩ wiSnappedSample).X - wiSnappedSample.LastPos.X = 30
    ∧ (snappedTarget ⟨130, 115⟩ wiSnappedSample).Y - wiSnappedSample.LastPos.Y = 15 := by
  have h := onMainWindowMoved_syncs { envSample with mainPos := ⟨130, 115⟩ }
    stateSnappedSample 1 wiSnappedSample (by decide) (by decide) (by decide)
  have h2 := h.2.2.1 (by decide) (by decide)
  have h3 := (h2.2.2 ⟨100, 100⟩ (by decide)).1
  have h4 := (h2.2.2 ⟨100, 100⟩ (by decide)).2
  exact ⟨h.1, h2.1, h2.2.1, by rw [h3]; decide, by rw [h4]; decide⟩

/-- Lemma: `handleSnappedWindow` either clears both snap flags together or
returns the window unchanged. -/
theorem handleSnappedWindow_flags (wss : WindowSnapService) (windowInfo : WindowInfo)
    (currentPos : WindowPosition) (now : Nat) :
    ((handleSnappedWindow wss windowInfo currentPos now).IsSnapped = false
      ∧ (handleSnappedWindow wss windowInfo currentPos now).SnapEdge = SnapEdge.None)
    ∨ handleSnappedWindow wss windowInfo currentPos now = windowInfo := by
  by_cases h : calculateAdaptiveThreshold wss <
      max ((currentPos.X - (wss.lastMainWindowPos.X + windowInfo.SnapOffset.X)).natAbs)
        ((currentPos.Y - (wss.lastMainWindowPos.Y + windowInfo.SnapOffset.Y)).natAbs)
      ∧ now - windowInfo.MoveTime < dragDetectionThreshold
  · have he : handleSnappedWindow wss windowInfo currentPos now
        = { windowInfo with IsSnapped := false, SnapEdge := SnapEdge.None } := if_pos h
    exact Or.inl (by rw [he]; exact ⟨rfl, rfl⟩)
  · have he : handleSnappedWindow wss windowInfo currentPos now = windowInfo := if_neg h
    exact Or.inr he

/-- Lemma: `handleUnsnappedWindow` preserves the snap invariant: on acceptance
it writes `IsSnapped = true` together with a non-`None` edge. -/
theorem handleUnsnappedWindow_inv (env : Env) (now lastMoveTime : Nat)
    (currentPos : WindowPosition) (documentID : Int) (windowInfo : WindowInfo)
    (wssA : WindowSnapService) (hA : SnapInv wssA) :
    SnapInv (handleUnsnappedWindow env now lastMoveTime currentPos documentID windowInfo
      wssA).1 := by
  cases hch : shouldSnapToMainWindow env now lastMoveTime currentPos documentID wssA with
  | mk wss1 r =>
    obtain ⟨b, e⟩ := r
    have hm1 : wss1.managedWindows = wssA.managedWindows := by
      obtain ⟨p, s, c, hst⟩ :=
        shouldSnapToMainWindow_state env now lastMoveTime currentPos documentID wssA
      have h2 : wss1 = (shouldSnapToMainWindow env now lastMoveTime currentPos
          documentID wssA).1 := by
        rw [hch]
      rw [h2, hst]
    cases b with
    | false =>
      simp only [handleUnsnappedWindow, hch]
      intro p hp
      exact hA p (hm1 ▸ hp)
    | true =>
      simp only [handleUnsnappedWindow, hch]
      obtain ⟨c2, hc2⟩ := calculateSnapPosition_state env e currentPos documentID wss1
      intro p hp
      rw [hc2] at hp
      dsimp only at hp
      rw [hm1] at hp
      rcases mem_updateAssoc hp with h5 | h5
      · subst h5
        have hne := shouldSnapToMainWindow_ne_none hch
        simp [hne]
      · exact hA p h5

/-- Claim C5: the invariant `isSnapped = true ↔ snapEdge ≠ None` holds
for every registered window after each service operation — registration,
child-move handling, primary-move handling and enabling/disabling —
provided it held before. -/
theorem snapInvariant_preserved (wss : WindowSnapService) (env : Env) (now : Nat)
    (documentID : Int) (enabled : Bool) (hinv : SnapInv wss) :
    SnapInv (RegisterWindow env now documentID wss)
    ∧ SnapInv (onChildWindowMoved env now documentID wss).1
    ∧ SnapInv (onMainWindowMoved env wss).1
    ∧ SnapInv (SetSnapEnabled enabled wss).1 := by
  refine ⟨?_, ?_, ?_, ?_⟩
  · intro p hp
    exact snapInv_update hinv (by simp) p hp
  · by_cases h1 : wss.snapEnabled = false
    · simpa [onChildWindowMoved, h1] using hinv
    · by_cases h2 : guardSet wss documentID = true
      · simpa [onChildWindowMoved, h1, h2] using hinv
      · have h2b : guardSet wss documentID = false := by
          cases hgs : guardSet wss documentID
          · rfl
          · exact absurd hgs h2
        cases hl : lookupA documentID wss.managedWindows with
        | none => simpa [onChildWindowMoved, h1, h2b, hl] using hinv
        | some windowInfo =>
          by_cases hpos : (env.windowPos documentID).X = windowInfo.LastPos.X
              ∧ (env.windowPos documentID).Y = windowInfo.LastPos.Y
          · simpa [onChildWindowMoved, h1, h2b, hl, hpos] using hinv
          · have hflag := hinv (documentID, windowInfo) (lookupA_mem hl)
            by_cases hsn : windowInfo.IsSnapped = true
            · simp only [onChildWindowMoved, h1, h2b, hl, hpos, hsn, Bool.not_eq_false,
                Bool.true_eq_false, Bool.false_eq_true, if_false, if_true]
              intro p hp
              rcases mem_updateAssoc hp with h5 | h5
              · rw [h5]
                rcases handleSnappedWindow_flags wss
                    { DocumentID := windowInfo.DocumentID, IsSnapped := true,
                      SnapOffset := windowInfo.SnapOffset, SnapEdge := windowInfo.SnapEdge,
                      LastPos := windowInfo.LastPos, MoveTime := now }
                    (env.windowPos documentID) now with ⟨ha, hb⟩ | hsame
                · simp [ha, hb]
                · rw [hsame]
                  simpa using hflag.mp hsn
              · exact hinv p h5
            · have hsnF : windowInfo.IsSnapped = false := by
                cases hgs : windowInfo.IsSnapped
                · rfl
                · exact absurd hgs hsn
              have hedge : windowInfo.SnapEdge = SnapEdge.None := by
                by_contra hne
                have h3 := hflag.mpr hne
                rw [hsnF] at h3
                exact absurd h3 (by simp)
              simp only [onChildWindowMoved, h1, h2b, hl, hpos, hsnF, Bool.not_eq_false,
                Bool.true_eq_false, Bool.false_eq_true, if_false, if_true]
              split
              · exact handleUnsnappedWindow_inv _ _ _ _ _ _ _
                  (fun q hq => snapInv_update hinv (by simp [hsnF, hedge]) q hq)
              · intro p hp
                rcases mem_updateAssoc hp with h5 | h5
                · rw [h5]
                  simp [hedge]
                · exact handleUnsnappedWindow_inv _ _ _ _ _ _ _
                    (fun q hq => snapInv_update hinv (by simp [hsnF, hedge]) q hq) p h5
  · by_cases h1 : wss.snapEnabled = false
    · simpa [onMainWindowMoved, h1] using hinv
    · by_cases h2 : env.mainAvailable = false
      · simpa [onMainWindowMoved, h1, h2] using hinv
      · intro p hp
        simp only [onMainWindowMoved, h1, h2, Bool.not_eq_false, Bool.true_eq_false,
          if_false] at hp
        rw [List.mem_map] at hp
        obtain ⟨q, hq, hfq⟩ := hp
        have hinvq := hinv q hq
        split at hfq
        · rw [← hfq]
          simpa using hinvq
        · rw [← hfq]
          exact hinvq
  · by_cases h1 : wss.snapEnabled = enabled
    · simpa [SetSnapEnabled, h1] using hinv
    · cases enabled with
      | false =>
        intro p hp
        simp only [SetSnapEnabled, h1, Bool.not_eq_false, Bool.true_eq_false,
          Bool.false_eq_true, if_false] at hp
        rw [List.mem_map] at hp
        obtain ⟨q, hq, hfq⟩ := hp
        have hinvq := hinv q hq
        split at hfq
        · rw [← hfq]
          simp
        · rw [← hfq]
          exact hinvq
      | true => simpa [SetSnapEnabled, h1] using hinv

/-- Claim C5 witness: the invariant is preserved across all four
operations from the sample snapped state. -/
theorem snapInvariant_preserved_witness :
    SnapInv (RegisterWindow envSample 1200 1 stateSnappedSample)
    ∧ SnapInv (onChildWindowMoved envSample 1200 1 stateSnappedSample).1
    ∧ SnapInv (onMainWindowMoved envSample stateSnappedSample).1
    ∧ SnapInv (SetSnapEnabled false stateSnappedSample).1 :=
  snapInvariant_preserved stateSnappedSample envSample 1200 1 false
    (by unfold SnapInv; decide)
